import Mathlib

/-!
Shallow embedding of the external-tool acquisition and version-reconciliation
subsystem of cargo-leptos (src/ext/exe.rs).

Pure string and version logic is translated directly; the stateful freshness
marker store is modelled as a step function over an explicit marker-file state;
the async latest-version fetch is modelled by an explicit outcome parameter
(the spawned task communicates through a oneshot channel, so the awaiting
caller observes exactly one of: Ok(Some tag), Ok(None), or a receive error).
Rust panics (unwrap/expect on failing values) are modelled by returning `none`
from an `Option`-typed embedding.
-/

/-- Decimal value of a list of ASCII digit characters, most significant first. -/
def digitsToNat (cs : List Char) : Nat :=
  cs.foldl (fun a c => a * 10 + (c.toNat - 48)) 0

/-- Embedding of Rust `str::parse::<u64>()`: an optional leading `+` sign,
then one or more ASCII digits, nothing else; values `≥ 2^64` overflow and fail.
Used both by `Command::should_check_for_new_version` (marker contents) and by
`Command::normalize_version` (step 3). -/
def parseU64 (s : String) : Option Nat :=
  let cs :=
    match s.data with
    | '+' :: rest => rest
    | cs => cs
  if cs.isEmpty then none
  else if !cs.all Char.isDigit then none
  else if digitsToNat cs < 2 ^ 64 then some (digitsToNat cs) else none

/-- Embedding of `semver::Version`: major/minor/patch numbers plus pre-release
and build-metadata identifier lists (the crate stores the raw identifier
strings; we keep them split at the dots). -/
structure Version where
  major : Nat
  minor : Nat
  patch : Nat
  pre : List String
  build : List String
deriving DecidableEq

/-- Embedding of `semver::Version::new`. -/
def Version.new (mjr mnr pat : Nat) : Version :=
  { major := mjr, minor := mnr, patch := pat, pre := [], build := [] }

/-- A numeric component of a semver version: nonempty ASCII digits, no leading
zero (unless the single digit `0`), value must fit in a `u64`. Returns the
value and the unconsumed rest of the input. -/
def parseNumericId (cs : List Char) : Option (Nat × List Char) :=
  let p := cs.span Char.isDigit
  let ds := p.1
  if ds.isEmpty then none
  else if ds.length > 1 && ds.head? == some '0' then none
  else if digitsToNat ds < 2 ^ 64 then some (digitsToNat ds, p.2) else none

/-- Characters allowed in semver pre-release / build identifiers:
ASCII alphanumerics and hyphen. -/
def isIdentCh (c : Char) : Bool :=
  c.isAlphanum || c == '-'

/-- A pre-release identifier is valid when nonempty and, if all digits,
carries no leading zero (semver rule enforced by the crate). -/
def validPreIdent (ds : List Char) : Bool :=
  !ds.isEmpty && (if ds.all Char.isDigit then !(ds.length > 1 && ds.head? == some '0') else true)

/-- A build-metadata identifier only has to be nonempty. -/
def validBuildIdent (ds : List Char) : Bool :=
  !ds.isEmpty

/-- Dot-separated identifier list for the `-pre` / `+build` sections of a
semver string. Fuel-based recursion (each step consumes at least the dot). -/
def parseIdentsLoop (fuel : Nat) (valid : List Char → Bool) (cs : List Char) :
    Option (List String × List Char) :=
  match fuel with
  | 0 => none
  | fuel + 1 =>
    let p := cs.span isIdentCh
    if valid p.1 then
      match p.2 with
      | '.' :: rest =>
        match parseIdentsLoop fuel valid rest with
        | some (ids, r) => some (String.mk p.1 :: ids, r)
        | none => none
      | rest => some ([String.mk p.1], rest)
    else none

/-- The optional `-pre` and `+build` tail of a semver string; the whole input
must be consumed. -/
def parseSuffixes (mjr mnr pat : Nat) (cs : List Char) : Option Version :=
  match cs with
  | [] => some { major := mjr, minor := mnr, patch := pat, pre := [], build := [] }
  | '-' :: rest =>
    match parseIdentsLoop (rest.length + 1) validPreIdent rest with
    | some (pre, []) => some { major := mjr, minor := mnr, patch := pat, pre := pre, build := [] }
    | some (pre, '+' :: rest2) =>
      match parseIdentsLoop (rest2.length + 1) validBuildIdent rest2 with
      | some (bld, []) =>
        some { major := mjr, minor := mnr, patch := pat, pre := pre, build := bld }
      | _ => none
    | _ => none
  | '+' :: rest =>
    match parseIdentsLoop (rest.length + 1) validBuildIdent rest with
    | some (bld, []) => some { major := mjr, minor := mnr, patch := pat, pre := [], build := bld }
    | _ => none
  | _ => none

/-- Embedding of `semver::Version::parse` (strict semantic-version parse):
`major.minor.patch` numeric components, then optional `-pre` and `+build`
identifier sections, with nothing left over. -/
def Version.parse (s : String) : Option Version :=
  match parseNumericId s.data with
  | none => none
  | some (mjr, cs1) =>
    match cs1 with
    | '.' :: cs2 =>
      match parseNumericId cs2 with
      | none => none
      | some (mnr, cs3) =>
        match cs3 with
        | '.' :: cs4 =>
          match parseNumericId cs4 with
          | none => none
          | some (pat, cs5) => parseSuffixes mjr mnr pat cs5
        | _ => none
    | _ => none

example : Version.parse "1.2.3" = some (Version.new 1 2 3) := by rfl
example : Version.parse "112" = none := by rfl
example : Version.parse "0.2" = none := by rfl
example : Version.parse "0.2.0" = some (Version.new 0 2 0) := by rfl
example : Version.parse "1a-test" = none := by rfl
example : Version.parse "1.2.3-alpha.1" =
    some { major := 1, minor := 2, patch := 3, pre := ["alpha", "1"], build := [] } := by rfl
example : Version.parse "01.2.3" = none := by rfl

/-- Embedding of `Command::sanitize_version_prefix`: drop characters from the
front while they are not ASCII digits (the `|| c == '_'` disjunct from the
source is kept verbatim although it is subsumed by the first test). -/
def sanitize_version_prefix (s : String) : String :=
  String.mk (s.data.dropWhile (fun c => !c.isDigit || c == '_'))

/-- Embedding of `Command::normalize_version`: sanitize the prefix, then
(1) strict semver parse, (2) whole-string `u64` parse treated as `n.0.0`,
(3) semver parse with `.0` appended; `none` when all three fail (the source
additionally logs an error in that case). -/
def normalize_version (s : String) : Option Version :=
  let v := sanitize_version_prefix s
  match Version.parse v with
  | some ver => some ver
  | none =>
    match parseU64 v with
    | some num => some (Version.new num 0 0)
    | none =>
      match Version.parse (v ++ ".0") with
      | some ver => some ver
      | none => none

/-- True when a semver identifier consists solely of ASCII digits (such
identifiers compare numerically). -/
def identIsNumeric (s : String) : Bool :=
  !s.isEmpty && s.data.all Char.isDigit

/-- Ordering of single semver identifiers, modelled from the semver crate:
numeric identifiers compare numerically and are lower than alphanumeric ones;
alphanumeric identifiers compare in ASCII order. -/
def cmpIdent (a b : String) : Ordering :=
  match identIsNumeric a, identIsNumeric b with
  | true, true => compare (digitsToNat a.data) (digitsToNat b.data)
  | true, false => Ordering.lt
  | false, true => Ordering.gt
  | false, false => compare a b

/-- Elementwise ordering of identifier lists; a strict prefix is lower. -/
def cmpIdents : List String → List String → Ordering
  | [], [] => Ordering.eq
  | [], _ :: _ => Ordering.lt
  | _ :: _, [] => Ordering.gt
  | x :: xs, y :: ys =>
    match cmpIdent x y with
    | Ordering.eq => cmpIdents xs ys
    | o => o

/-- Pre-release ordering: an empty pre-release (a normal release) is greater
than any non-empty one; otherwise identifier lists compare elementwise. -/
def cmpPre (a b : List String) : Ordering :=
  match a, b with
  | [], [] => Ordering.eq
  | [], _ :: _ => Ordering.gt
  | _ :: _, [] => Ordering.lt
  | _, _ => cmpIdents a b

/-- Total order on versions, modelled from the semver crate `Ord` instance:
major, minor, patch, pre-release precedence, then build metadata as a
tie-break so the order is total. -/
def Version.cmpv (a b : Version) : Ordering :=
  match compare a.major b.major with
  | Ordering.eq =>
    match compare a.minor b.minor with
    | Ordering.eq =>
      match compare a.patch b.patch with
      | Ordering.eq =>
        match cmpPre a.pre b.pre with
        | Ordering.eq => cmpIdents a.build b.build
        | o => o
      | o => o
    | o => o
  | o => o

/-- Embedding of Rust `Option<Version>::cmp` (`None` is less than `Some`),
as used on the results of `normalize_version` in `resolve_version`. -/
def cmpOptVersion : Option Version → Option Version → Ordering
  | none, none => Ordering.eq
  | none, some _ => Ordering.lt
  | some _, none => Ordering.gt
  | some a, some b => Version.cmpv a b

/-- The per-tool static data of the `Command` trait: display name, compiled
default version, version-override environment variable name, GitHub owner and
repository. -/
structure Command where
  name : String
  default_version : String
  env_var_version_name : String
  github_owner : String
  github_repo : String
deriving DecidableEq

/-- `const ENV_VAR_LEPTOS_CARGO_GENERATE_VERSION`. -/
def ENV_VAR_LEPTOS_CARGO_GENERATE_VERSION : String := "LEPTOS_CARGO_GENERATE_VERSION"

/-- `const ENV_VAR_LEPTOS_TAILWIND_VERSION`. -/
def ENV_VAR_LEPTOS_TAILWIND_VERSION : String := "LEPTOS_TAILWIND_VERSION"

/-- `const ENV_VAR_LEPTOS_SASS_VERSION`. -/
def ENV_VAR_LEPTOS_SASS_VERSION : String := "LEPTOS_SASS_VERSION"

/-- `const ENV_VAR_LEPTOS_WASM_OPT_VERSION`. -/
def ENV_VAR_LEPTOS_WASM_OPT_VERSION : String := "LEPTOS_WASM_OPT_VERSION"

/-- The `impl Command for CommandTailwind` values. -/
def CommandTailwind : Command :=
  ⟨"Tailwind", "v3.3.3", ENV_VAR_LEPTOS_TAILWIND_VERSION, "tailwindlabs", "tailwindcss"⟩

/-- The `impl Command for CommandWasmOpt` values. -/
def CommandWasmOpt : Command :=
  ⟨"WASM Opt", "version_112", ENV_VAR_LEPTOS_WASM_OPT_VERSION, "WebAssembly", "binaryen"⟩

/-- The `impl Command for CommandSass` values: the source returns the literal
"Tailwind" for `name()` and the Tailwind environment variable for
`env_var_version_name()`. -/
def CommandSass : Command :=
  ⟨"Tailwind", "1.58.3", ENV_VAR_LEPTOS_TAILWIND_VERSION, "dart-musl", "dart-sass"⟩

/-- The `impl Command for CommandCargoGenerate` values: the source returns the
literal "Tailwind" for `name()` and the Tailwind environment variable for
`env_var_version_name()`. -/
def CommandCargoGenerate : Command :=
  ⟨"Tailwind", "0.17.3", ENV_VAR_LEPTOS_TAILWIND_VERSION, "cargo-generate", "cargo-generate"⟩

/-- The freshness-marker file name for a tool, from
`Command::should_check_for_new_version`:
`dir.join(format!(".{}_last_checked", self.name()))`. -/
def Command.marker_file_name (cmd : Command) : String :=
  "." ++ cmd.name ++ "_last_checked"

/-- State of one tool freshness-marker path, covering every branch of
`Command::should_check_for_new_version`: the cache root may be unobtainable,
the marker path may be a directory, the marker file may be absent, unreadable,
or readable with some contents. -/
inductive MarkerState
  | noCacheDir
  | isDir
  | absent
  | unreadable
  | file (contents : String)
deriving DecidableEq

/-- `Duration::from_secs(24 * 60 * 60)` expressed in milliseconds, the unit
of the marker timestamps. -/
def oneDayMs : Nat := 24 * 60 * 60 * 1000

/-- Embedding of `Command::should_check_for_new_version` as a step function on
the tool marker state; `nowMs` is the current UNIX time in milliseconds
(`SystemTime::now().duration_since(UNIX_EPOCH)`, assumed `Ok`; the source
compares whole `Duration`s, the sub-millisecond part does not affect any
threshold stated over milliseconds), and `writeOk` tells whether writing the
marker file succeeds. Returns `none` where the source panics:
the contents of an existing marker file go through `.parse::<u64>().ok().unwrap()`,
which panics when the parse fails, and `now - last_checked` on `Duration`s
panics when the marker timestamp lies in the future. `self` is used by the
source only in log messages, which are not modelled here. -/
def should_check_step (cmd : Command) (st : MarkerState) (nowMs : Nat) (writeOk : Bool) :
    Option (Bool × MarkerState) :=
  match st with
  | MarkerState.noCacheDir => some (false, MarkerState.noCacheDir)
  | MarkerState.isDir => some (false, MarkerState.isDir)
  | MarkerState.unreadable => some (false, MarkerState.unreadable)
  | MarkerState.file c =>
    match parseU64 c with
    | none => none
    | some ts =>
      if nowMs < ts then none
      else some (decide (oneDayMs < nowMs - ts), MarkerState.file c)
  | MarkerState.absent =>
    if writeOk then some (true, MarkerState.file (toString nowMs))
    else some (false, MarkerState.absent)

/-- A sequence of `should_check_step` calls at the given times, threading the
marker state; `none` as soon as one call panics. Marker writes succeed. -/
def runCalls (cmd : Command) (st : MarkerState) (times : List Nat) :
    Option (List Bool × MarkerState) :=
  match times with
  | [] => some ([], st)
  | t :: ts =>
    match should_check_step cmd st t true with
    | none => none
    | some (b, st') =>
      match runCalls cmd st' ts with
      | none => none
      | some (bs, st'') => some (b :: bs, st'')

example : normalize_version "v1.2.3" = some (Version.new 1 2 3) := by rfl
example : should_check_step CommandTailwind MarkerState.absent 7 true =
    some (true, MarkerState.file "7") := by rfl
example : runCalls CommandTailwind MarkerState.absent [0, 172800000, 172860000] =
    some ([true, true, true], MarkerState.file "0") := by rfl

/-- Outcome observed by `rx.await` on the oneshot channel carrying the result
of the spawned `check_for_latest_version` task: `Ok(Some(tag))`, `Ok(None)`,
or a receive error (channel closed). -/
inductive FetchOutcome
  | success (tag : String)
  | failure
  | closed

/-- The log calls of `Command::resolve_version`, by level and arguments. -/
inductive LogEvent
  | traceNotChecking (name : String)
  | debugChecking (name : String)
  | debugUpToDate (name version latest : String)
  | infoUpgrade (name version latest : String)
  | debugRecvFailed (name : String)
deriving DecidableEq

/-- Embedding of `Command::resolve_version`. It first runs
`should_check_for_new_version` (propagating its panics as `none` and threading
the marker state); when that returns `false` it returns the compiled default
version at once. Otherwise it reads the environment override (`env` is the
variable value when present; `env::var` falls back to the default only when
the variable is absent or not unicode), spawns the latest-version fetch, and
matches on the channel outcome purely to decide what to log — comparing the
normalized versions with `Option::cmp` when both normalize — before returning
`version`. Returns the version, the marker state after the call, and the log
events in order. -/
def resolve_version (cmd : Command) (st : MarkerState) (nowMs : Nat) (writeOk : Bool)
    (env : Option String) (fetch : FetchOutcome) :
    Option (String × MarkerState × List LogEvent) :=
  match should_check_step cmd st nowMs writeOk with
  | none => none
  | some (false, st') => some (cmd.default_version, st', [LogEvent.traceNotChecking cmd.name])
  | some (true, st') =>
    let version := match env with
      | some v => v
      | none => cmd.default_version
    let fetchLogs :=
      match fetch with
      | FetchOutcome.success latest =>
        let norm_latest := normalize_version latest
        let norm_version := normalize_version version
        if norm_latest.isSome && norm_version.isSome then
          match cmpOptVersion norm_version norm_latest with
          | Ordering.gt => [LogEvent.debugUpToDate cmd.name version latest]
          | Ordering.eq => [LogEvent.debugUpToDate cmd.name version latest]
          | Ordering.lt => [LogEvent.infoUpgrade cmd.name version latest]
        else []
      | FetchOutcome.failure => []
      | FetchOutcome.closed => [LogEvent.debugRecvFailed cmd.name]
    some (version, st',
      LogEvent.debugChecking cmd.name :: LogEvent.debugChecking cmd.name :: fetchLogs)

/-- The tool identity enum `Exe`. -/
inductive Exe
  | cargoGenerate
  | sass
  | wasmOpt
  | tailwind
deriving DecidableEq

/-- The claim-relevant fields of `ExeMeta`: the bare command name used for the
PATH lookup and error message, and the manual-install hint. -/
structure ExeMeta where
  name : String
  manual : String

/-- The `name` and `manual` fields of the `ExeMeta` built by `Exe::meta` for
each tool (the remaining fields — version, URL, expected executable path —
depend on the platform matrix and are not needed by the claims below). -/
def Exe.meta_parts : Exe → ExeMeta
  | Exe.cargoGenerate =>
    ⟨"cargo-generate",
     "Try manually installing cargo-generate: https://github.com/cargo-generate/cargo-generate#installation"⟩
  | Exe.sass => ⟨"sass", "Try manually installing sass: https://sass-lang.com/install"⟩
  | Exe.wasmOpt =>
    ⟨"wasm-opt", "Try manually installing binaryen: https://github.com/WebAssembly/binaryen"⟩
  | Exe.tailwind => ⟨"tailwindcss", "Try manually installing tailwindcss"⟩

/-- Embedding of `Exe::get`: `global_path` is the result of the `which` PATH
lookup, `no_downloads` the `cfg!(feature = "no_downloads")` flag, and `cached`
the outcome of `meta.cached()` (the cache/download path). A cache/download
error is wrapped with the manual hint by `.context(meta.manual)`, modelled by
prefixing the hint to the error text. -/
def Exe.get (e : Exe) (global_path : Option String) (no_downloads : Bool)
    (cached : Except String String) : Except String String :=
  let meta := e.meta_parts
  match global_path with
  | some path => Except.ok path
  | none =>
    if no_downloads then
      Except.error (meta.name ++
        " is required but was not found. Please install it using your OS\x27s tool of choice")
    else
      match cached with
      | Except.ok path => Except.ok path
      | Except.error msg => Except.error (meta.manual ++ ": " ++ msg)

/-- Bool test for one character-list occurring contiguously inside another. -/
def listContainsSub (needle : List Char) : List Char → Bool
  | [] => needle.isEmpty
  | h :: t => needle.isPrefixOf (h :: t) || listContainsSub needle t

/-- Bool test for `needle` occurring as a contiguous substring of `hay`. -/
def strContainsSub (hay needle : String) : Bool :=
  listContainsSub needle.data hay.data

/-- Classification of a download by URL suffix, from the if-chain of
`ExeCache::extract_downloaded`: `.zip`, then `.tar.gz`, else a raw
single-file executable. -/
inductive ArchiveKind
  | zip
  | tarGz
  | raw
deriving DecidableEq

/-- Embedding of Rust `str::ends_with` on the character level. -/
def endsWithStr (s suffix : String) : Bool :=
  suffix.data.isSuffixOf s.data

/-- The URL-suffix dispatch of `ExeCache::extract_downloaded`. -/
def classify (url : String) : ArchiveKind :=
  if endsWithStr url ".zip" then ArchiveKind.zip
  else if endsWithStr url ".tar.gz" then ArchiveKind.tarGz
  else ArchiveKind.raw

/-- Filesystem operations performed by the extract/write step, as they appear
in the source: the zip and tar unpack calls are single external-crate calls
(`ZipArchive::extract`, `tar::Archive::unpack`), the raw path is spelled out
operation by operation in `ExeCache::write_binary`. -/
inductive FsOp
  | unpackZip (dest : String)
  | unpackTarGz (dest : String)
  | createDirAll (dir : String)
  | createFile (path : String)
  | writeAll (path : String)
  | setMode (path : String) (mode : Nat)
deriving DecidableEq

/-- The operations of `ExeCache::write_binary` in order: create the cache
entry directory, create the executable file at `exe_dir.join(exe)` (modelled
with a `/` separator), write the bytes, and — only under
`cfg(target_family = "unix")` — set the file mode to `0o550`. -/
def write_binary_ops (unix : Bool) (exe_dir exe : String) : List FsOp :=
  [FsOp.createDirAll exe_dir,
   FsOp.createFile (exe_dir ++ "/" ++ exe),
   FsOp.writeAll (exe_dir ++ "/" ++ exe)] ++
    (if unix then [FsOp.setMode (exe_dir ++ "/" ++ exe) 0o550] else [])

/-- The operations of `ExeCache::extract_downloaded`, dispatching on the URL
suffix: zip extraction, gzip-tar extraction, or the raw `write_binary` path. -/
def extract_downloaded_ops (unix : Bool) (url exe_dir exe : String) : List FsOp :=
  match classify url with
  | ArchiveKind.zip => [FsOp.unpackZip exe_dir]
  | ArchiveKind.tarGz => [FsOp.unpackTarGz exe_dir]
  | ArchiveKind.raw => write_binary_ops unix exe_dir exe

/-- Which fallible filesystem calls inside `ExeCache::write_binary` fail. -/
structure IoFaults where
  createDirAllFails : Bool
  createFileFails : Bool
  writeAllFails : Bool
  metadataFails : Bool
  setPermissionsFails : Bool

/-- Embedding of `ExeCache::write_binary` under injected IO faults. `none`
models a panic: the source calls `.unwrap()` on both
`fs::create_dir_all(&self.exe_dir)` and `File::create(&path)`. The later
calls (`write_all`, and on unix `fs::metadata` / `fs::set_permissions`)
propagate their failures as error values (`.context(...)` / `?`). -/
def write_binary_run (unix : Bool) (f : IoFaults) (exe_dir exe : String) :
    Option (Except String Unit) :=
  if f.createDirAllFails then none
  else if f.createFileFails then none
  else if f.writeAllFails then
    some (Except.error ("Error writing binary file: " ++ exe_dir ++ "/" ++ exe))
  else if unix then
    if f.metadataFails then some (Except.error "io error")
    else if f.setPermissionsFails then some (Except.error "io error")
    else some (Except.ok ())
  else some (Except.ok ())

example : resolve_version CommandTailwind (MarkerState.file "0") 1000 true
    (some "99.99.99") FetchOutcome.failure =
    some ("v3.3.3", MarkerState.file "0", [LogEvent.traceNotChecking "Tailwind"]) := by rfl
example : Exe.get Exe.sass none true (Except.ok "ignored") =
    Except.error
      "sass is required but was not found. Please install it using your OS\x27s tool of choice" := by
  rfl
example : strContainsSub "abcdef" "cde" = true := by rfl
example : classify "https://a/b.tar.gz" = ArchiveKind.tarGz := by rfl

/-- C10: the normalization table holds: "v1.2.3" normalizes to 1.2.3,
"version_112" to 112.0.0, "10.0.0" to 10.0.0, "5" to 5.0.0, "0.2" to 0.2.0,
and "1a-test" fails at every step and returns no result. -/
theorem normalize_version_table :
    normalize_version "v1.2.3" = some (Version.new 1 2 3) ∧
    normalize_version "version_112" = some (Version.new 112 0 0) ∧
    normalize_version "10.0.0" = some (Version.new 10 0 0) ∧
    normalize_version "5" = some (Version.new 5 0 0) ∧
    normalize_version "0.2" = some (Version.new 0 2 0) ∧
    normalize_version "1a-test" = none :=
  ⟨rfl, rfl, rfl, rfl, rfl, rfl⟩

/-- C7: contrary to the claim that each of the four tools reads its own
distinct override environment variable, the `Command` impls for Sass and
cargo-generate return the Tailwind variable `LEPTOS_TAILWIND_VERSION`; the
dedicated constants `LEPTOS_SASS_VERSION` and `LEPTOS_CARGO_GENERATE_VERSION`
exist in the source but are never used. This theorem evaluates the code at the
failing input (the Sass/Tailwind and cargo-generate/Tailwind pairs). -/
theorem sass_and_cargo_generate_share_tailwind_env_var :
    CommandSass.env_var_version_name = CommandTailwind.env_var_version_name ∧
    CommandCargoGenerate.env_var_version_name = CommandTailwind.env_var_version_name ∧
    CommandTailwind.env_var_version_name = "LEPTOS_TAILWIND_VERSION" ∧
    ENV_VAR_LEPTOS_SASS_VERSION ≠ ENV_VAR_LEPTOS_TAILWIND_VERSION :=
  ⟨rfl, rfl, rfl, by decide⟩

/-- C8: contrary to the claim that each tool has its own distinct
freshness-marker file `.<ToolDisplayName>_last_checked`, the `name()` impls
for Sass and cargo-generate return "Tailwind", so three of the four tools
share the marker file ".Tailwind_last_checked" and throttle each other. This
theorem evaluates the marker file names at the failing inputs. -/
theorem marker_file_names_collide :
    CommandSass.marker_file_name = CommandTailwind.marker_file_name ∧
    CommandCargoGenerate.marker_file_name = CommandTailwind.marker_file_name ∧
    CommandTailwind.marker_file_name = ".Tailwind_last_checked" ∧
    CommandWasmOpt.marker_file_name = ".WASM Opt_last_checked" :=
  ⟨rfl, rfl, rfl, rfl⟩

/-- C3: contrary to the claim that malformed marker contents make
`should_check_for_new_version` return false without error or panic, the
source parses the contents with `.parse::<u64>().ok().unwrap()`, which panics
(modelled as `none`) when they do not parse as an integer. The parse-ok side
of the claim does hold for past timestamps: true exactly when
`now - markerTime` exceeds 24 hours (86400000 ms), as the last two conjuncts
evaluate at the boundary. -/
theorem should_check_malformed_marker_panics :
    should_check_step CommandTailwind (MarkerState.file "garbage") 1000 true = none ∧
    should_check_step CommandTailwind (MarkerState.file "0") 86400001 true =
      some (true, MarkerState.file "0") ∧
    should_check_step CommandTailwind (MarkerState.file "0") 86400000 true =
      some (false, MarkerState.file "0") :=
  ⟨rfl, rfl, rfl⟩

/-- C9: contrary to the claim that every IO failure in the extract/write step
surfaces as an `ExtractFailed`/`WriteFailed` error value, `ExeCache::write_binary`
calls `.unwrap()` on both `fs::create_dir_all` and `File::create`, so a
failure of either panics (modelled as `none`) instead of returning an error;
only the later write and permission calls surface as error values. This
theorem evaluates the embedded routine at the two failing inputs and at a
write failure for contrast. -/
theorem write_binary_panics_on_create_failures :
    write_binary_run true ⟨true, false, false, false, false⟩ "cachedir" "tool" = none ∧
    write_binary_run true ⟨false, true, false, false, false⟩ "cachedir" "tool" = none ∧
    write_binary_run true ⟨false, false, true, false, false⟩ "cachedir" "tool" =
      some (Except.error "Error writing binary file: cachedir/tool") :=
  ⟨rfl, rfl, rfl⟩

/-- C1 counterexample: with the freshness marker saying "skip" (marker "0"
read 1000 ms after the epoch, well inside 24h) and the override environment
variable set to the non-empty string "99.99.99", `resolve_version` for the
Tailwind tool returns the compiled default "v3.3.3" — not the candidate
"99.99.99" the claim requires. -/
theorem resolve_version_skip_ignores_override_cex :
    resolve_version CommandTailwind (MarkerState.file "0") 1000 true
        (some "99.99.99") FetchOutcome.failure =
      some ("v3.3.3", MarkerState.file "0", [LogEvent.traceNotChecking "Tailwind"]) ∧
    ("v3.3.3" : String) ≠ "99.99.99" :=
  ⟨rfl, by decide⟩

/-- C1 (amended): when the Freshness Marker Store says to skip the remote
check, `resolve_version` returns the compiled-in default version immediately;
the environment-variable override is not consulted on this path. -/
theorem resolve_version_skip_returns_default :
    ∀ (cmd : Command) (st st' : MarkerState) (nowMs : Nat) (w : Bool)
      (env : Option String) (fetch : FetchOutcome),
      should_check_step cmd st nowMs w = some (false, st') →
      resolve_version cmd st nowMs w env fetch =
        some (cmd.default_version, st', [LogEvent.traceNotChecking cmd.name]) := by
  intro cmd st st' nowMs w env fetch h
  simp only [resolve_version, h]

/-- Witness for the C1 amended theorem at a concrete input: Tailwind, marker
"0" read at 1000 ms, override set to "9.9.9", fetch failing. -/
theorem resolve_version_skip_returns_default_witness :
    resolve_version CommandTailwind (MarkerState.file "0") 1000 true
        (some "9.9.9") FetchOutcome.failure =
      some ("v3.3.3", MarkerState.file "0", [LogEvent.traceNotChecking "Tailwind"]) :=
  resolve_version_skip_returns_default CommandTailwind (MarkerState.file "0")
    (MarkerState.file "0") 1000 true (some "9.9.9") FetchOutcome.failure (by decide)

/-- C2 counterexample: starting with no marker, calls at 0 ms, 172800000 ms
(2 days) and 172860000 ms (2 days + 1 minute) all trigger a check, and the
marker still holds "0" at the end: the expired-marker path never rewrites the
marker, so the check triggered at 2 days is not recorded and the call one
minute later — inside the same 24h window — triggers again, contradicting
"at most one check per 24-hour period" and "every triggered check is recorded
in the marker". -/
theorem should_check_no_refresh_cex :
    runCalls CommandTailwind MarkerState.absent [0, 172800000, 172860000] =
      some ([true, true, true], MarkerState.file "0") ∧
    172860000 - 172800000 < oneDayMs :=
  ⟨rfl, by decide⟩

/-- C2 (amended): the first call (no marker, write succeeding) writes the
current timestamp and triggers a check; a call within 24 hours of the
timestamp recorded in the marker never triggers a check; a call more than 24
hours after that timestamp triggers a check but leaves the marker unchanged —
so the throttle is relative to the first recorded timestamp only, and every
call after the marker expires triggers a check. -/
theorem should_check_step_behavior :
    (∀ (cmd : Command) (nowMs : Nat),
      should_check_step cmd MarkerState.absent nowMs true =
        some (true, MarkerState.file (toString nowMs))) ∧
    (∀ (cmd : Command) (c : String) (ts nowMs : Nat) (w : Bool),
      parseU64 c = some ts → ts ≤ nowMs → nowMs - ts ≤ oneDayMs →
      should_check_step cmd (MarkerState.file c) nowMs w =
        some (false, MarkerState.file c)) ∧
    (∀ (cmd : Command) (c : String) (ts nowMs : Nat) (w : Bool),
      parseU64 c = some ts → oneDayMs < nowMs - ts →
      should_check_step cmd (MarkerState.file c) nowMs w =
        some (true, MarkerState.file c)) := by
  refine ⟨fun cmd nowMs => rfl, ?_, ?_⟩
  · intro cmd c ts nowMs w hparse hle hwin
    simp only [should_check_step, hparse, if_neg (Nat.not_lt.mpr hle)]
    rw [decide_eq_false (Nat.not_lt.mpr hwin)]
  · intro cmd c ts nowMs w hparse hgt
    have hle : ts ≤ nowMs := by omega
    simp only [should_check_step, hparse, if_neg (Nat.not_lt.mpr hle)]
    rw [decide_eq_true hgt]

/-- Witness for the C2 amended theorem at concrete inputs: a first call at
7 ms, a within-24h call (marker "5", now 100 ms), and a beyond-24h call
(marker "0", now 86400001 ms). -/
theorem should_check_step_behavior_witness :
    should_check_step CommandTailwind MarkerState.absent 7 true =
      some (true, MarkerState.file "7") ∧
    should_check_step CommandTailwind (MarkerState.file "5") 100 true =
      some (false, MarkerState.file "5") ∧
    should_check_step CommandTailwind (MarkerState.file "0") 86400001 false =
      some (true, MarkerState.file "0") :=
  ⟨should_check_step_behavior.1 CommandTailwind 7,
   should_check_step_behavior.2.1 CommandTailwind "5" 5 100 true (by decide) (by decide)
     (by decide),
   should_check_step_behavior.2.2 CommandTailwind "0" 0 86400001 false (by decide) (by decide)⟩

/-- C4 counterexample: with downloads disabled and Sass absent from the search
path, `Exe::get` fails with the generic message naming the tool, and that
message does not contain the tool manual-install hint
("Try manually installing sass: https://sass-lang.com/install"). -/
theorem missing_tool_error_lacks_manual_hint_cex :
    Exe.get Exe.sass none true (Except.ok "ignored") =
      Except.error
        "sass is required but was not found. Please install it using your OS\x27s tool of choice" ∧
    strContainsSub
      "sass is required but was not found. Please install it using your OS\x27s tool of choice"
      (Exe.meta_parts Exe.sass).manual = false :=
  ⟨rfl, rfl⟩

/-- C4 (amended): when downloads are disabled and the tool is not found on the
search path, acquisition fails with the generic error
"<tool> is required but was not found. Please install it using your OS tool
of choice"; the per-tool manual-install hint is attached only to failures of
the cache/download path, not to this error. -/
theorem missing_tool_error_message :
    ∀ (e : Exe) (cached : Except String String),
      Exe.get e none true cached =
        Except.error ((Exe.meta_parts e).name ++
          " is required but was not found. Please install it using your OS\x27s tool of choice") := by
  intro e cached
  rfl

/-- C5: for every tool, marker state, time, environment override and every
pair of latest-fetch outcomes (success with any tag, failure, or channel
closure), `resolve_version` returns the same version string and the same
marker state: the fetch outcome influences only the log events. -/
theorem resolve_version_fetch_independent :
    ∀ (cmd : Command) (st : MarkerState) (nowMs : Nat) (w : Bool)
      (env : Option String) (f1 f2 : FetchOutcome),
      Option.map (fun r => (r.1, r.2.1)) (resolve_version cmd st nowMs w env f1) =
      Option.map (fun r => (r.1, r.2.1)) (resolve_version cmd st nowMs w env f2) := by
  intro cmd st nowMs w env f1 f2
  simp only [resolve_version]
  cases should_check_step cmd st nowMs w with
  | none => rfl
  | some pr =>
    obtain ⟨b, st'⟩ := pr
    cases b <;> rfl

/-- C6 counterexample: for a gzip-tar download (the wasm-opt URL), the
extract step consists solely of the tar unpack call — it contains no
operation setting the executable mode to 0o550, even on unix. -/
theorem tar_extraction_sets_no_mode_cex :
    extract_downloaded_ops true
        "https://github.com/WebAssembly/binaryen/releases/download/version_112/binaryen-version_112-x86_64-linux.tar.gz"
        "exedir" "binaryen-version_112/bin/wasm-opt" =
      [FsOp.unpackTarGz "exedir"] ∧
    FsOp.setMode "exedir/binaryen-version_112/bin/wasm-opt" 0o550 ∉
      [FsOp.unpackTarGz "exedir"] :=
  ⟨rfl, by decide⟩

/-- C6 (amended): the 0o550 permission operation is performed exactly in the
raw single-file classification on non-Windows targets, on the written
executable path; zip and gzip-tar extraction perform no permission-setting
operation, and on Windows none is performed at all. -/
theorem set_mode_occurs_iff_raw_unix :
    ∀ (unix : Bool) (url exe_dir exe p : String) (m : Nat),
      (FsOp.setMode p m ∈ extract_downloaded_ops unix url exe_dir exe) ↔
        (classify url = ArchiveKind.raw ∧ unix = true ∧
         p = exe_dir ++ "/" ++ exe ∧ m = 0o550) := by
  intro unix url exe_dir exe p m
  cases h : classify url with
  | zip => simp [extract_downloaded_ops, h]
  | tarGz => simp [extract_downloaded_ops, h]
  | raw =>
    cases unix with
    | false => simp [extract_downloaded_ops, write_binary_ops, h]
    | true => simp [extract_downloaded_ops, write_binary_ops, h]
